import Mathlib

/-!
# Host server orchestration and the file-control dispatch proxy

A shallow embedding of `source/host/server.cc` (class `host::Server`) and of
`source/client/file_control_proxy.cc` (class `client::FileControlProxy`).

Every member function becomes a function on an explicit world: the members of
the object together with the ordered trace of the calls it made on its
collaborators and of the lines it logged.  A function that dereferences a
member pointer without testing it returns `none` when that pointer is null.
-/

namespace host

/-- Byte strings (`base::ByteArray`). -/
abbrev ByteArray := List Nat

/-- A user list (`base::UserList`), kept as the list of its user names. -/
abbrev UserList := List String

/-- Modelled from the spec: `base::UserList::merge` is not part of the available
sources; the merged list holds the users of both lists. -/
def UserList.merge (a b : UserList) : UserList := a ++ b

/-- The values held by the settings object (`settings_`), as read by `Server`. -/
structure Settings where
  filePath : String
  tcpPort : Nat
  isRouterEnabled : Bool
  routerAddress : String
  routerPort : Nat
  routerPublicKey : ByteArray
  hostKey : ByteArray
  userList : UserList
  deriving DecidableEq, Repr

/-- The connection parameters filled by `connectToRouter`
(`RouterController::RouterInfo`). -/
structure RouterInfo where
  address : String
  port : Nat
  public_key : ByteArray
  host_key : ByteArray
  deriving DecidableEq, Repr

/-- Modelled from the spec: `RouterController` is not part of the available
sources; it holds the parameters it was started with and its accessors
`address()`, `port()`, `publicKey()` return them. -/
structure RouterController where
  router_info : RouterInfo
  deriving DecidableEq, Repr

/-- The accessor `RouterController::address()`. -/
def RouterController.address (c : RouterController) : String := c.router_info.address

/-- The accessor `RouterController::port()`. -/
def RouterController.port (c : RouterController) : Nat := c.router_info.port

/-- The accessor `RouterController::publicKey()`. -/
def RouterController.publicKey (c : RouterController) : ByteArray := c.router_info.public_key

/-- The states of `proto::internal::RouterState` named by the specification. -/
inductive RouterState where
  | DISABLED
  | CONNECTING
  | CONNECTED
  | ERROR
  deriving DecidableEq, Repr

/-- A network channel (`base::NetworkChannel`): an identity and the two socket
settings that `startAuthentication` writes. -/
structure NetworkChannel where
  id : Nat
  readBufferSize : Nat
  noDelay : Bool
  deriving DecidableEq, Repr

/-- The method `NetworkChannel::setReadBufferSize`. -/
def NetworkChannel.setReadBufferSize (c : NetworkChannel) (n : Nat) : NetworkChannel :=
  { c with readBufferSize := n }

/-- The method `NetworkChannel::setNoDelay`. -/
def NetworkChannel.setNoDelay (c : NetworkChannel) (b : Bool) : NetworkChannel :=
  { c with noDelay := b }

/-- The settings watcher (`base::FilePathWatcher`): the path it watches. -/
structure FilePathWatcher where
  watched : Option String
  deriving DecidableEq, Repr

/-- The authenticator manager (`base::ServerAuthenticatorManager`): the user list
last pushed to it and the channels handed to it, oldest first. -/
structure ServerAuthenticatorManager where
  user_list : Option UserList
  channels : List NetworkChannel
  deriving DecidableEq, Repr

/-- Modelled from the spec: `UserSessionManager` is not part of the available
sources; it holds the list of one-time users and the router state last
published to it, and a new one has no one-time users. -/
structure UserSessionManager where
  userList : UserList
  router_state : Option RouterState
  deriving DecidableEq, Repr

/-- The direct listener (`base::NetworkServer`): the port it was started on and
whether binding that port succeeded. -/
structure NetworkServer where
  port : Nat
  listening : Bool
  deriving DecidableEq, Repr

/-- The members of `host::Server`. -/
structure Server where
  settings_ : Settings
  settings_watcher_ : Option FilePathWatcher
  authenticator_manager_ : Option ServerAuthenticatorManager
  user_session_manager_ : Option UserSessionManager
  server_ : Option NetworkServer
  router_controller_ : Option RouterController
  deriving DecidableEq, Repr

/-- Log severities used by `server.cc`. -/
inductive Severity where
  | LS_INFO
  | LS_WARNING
  deriving DecidableEq, Repr

/-- What `Server` does to the outside, one constructor per kind of call. -/
inductive Effect where
  | LOG (sev : Severity) (msg : String)
  | DLOG (sev : Severity) (msg : String)
  | watcherCreated
  | watch (path : String)
  | watcherDestroyed
  | authenticatorManagerCreated
  | authenticatorManagerDestroyed
  | setUserList (users : UserList)
  | addNewChannel (channel : NetworkChannel)
  | userSessionManagerCreated
  | userSessionManagerStart
  | userSessionManagerDestroyed
  | setRouterState (state : RouterState)
  | addTcpRule (name : String) (description : String) (port : Nat)
  | deleteRuleByName (name : String)
  | networkServerCreated
  | networkServerStart (port : Nat)
  | networkServerDestroyed
  | routerControllerCreated
  | routerControllerStart (info : RouterInfo)
  | routerControllerDestroyed
  | settingsSync
  | setReadBufferSize (channel : Nat) (size : Nat)
  | setNoDelay (channel : Nat) (enable : Bool)
  deriving DecidableEq, Repr

/-- Whether an effect is a log line (`LOG` or `DLOG`) rather than a call on a
collaborator. -/
def Effect.isLog : Effect → Bool
  | .LOG _ _ => true
  | .DLOG _ _ => true
  | _ => false

/-- What the platform answers to the calls whose outcome `Server` does not
control. -/
structure Env where
  /-- Result of `base::BasePaths::currentExecFile`. -/
  currentExecFile : Bool
  /-- Result of `FirewallManager::isValid`. -/
  firewallValid : Bool
  /-- Result of `FirewallManager::addTcpRule`. -/
  addTcpRuleOk : Bool
  /-- Whether `NetworkServer::start` manages to bind the port. -/
  bindOk : Bool
  deriving DecidableEq, Repr

/-- A server together with the trace of what it did so far, oldest first. -/
structure World where
  server : Server
  trace : List Effect
  deriving DecidableEq, Repr

/-- Appends one effect to the trace. -/
def World.emit (w : World) (e : Effect) : World :=
  { w with trace := w.trace ++ [e] }

/-- The constant `kFirewallRuleName`. -/
def kFirewallRuleName : String := "Aspia Host Service"

/-- The constant `kFirewallRuleDecription`. -/
def kFirewallRuleDecription : String := "Allow incoming TCP connections"

/-- The constant `kReadBufferSize` of `startAuthentication`: `1 * 1024 * 1024`. -/
def kReadBufferSize : Nat := 1 * 1024 * 1024

/-- What releasing an owning pointer emits: the destruction of the object it
holds, nothing when it is null. -/
def destroyedIf {α : Type} (p : Option α) (e : Effect) : List Effect :=
  match p with
  | some _ => [e]
  | none => []

/-- The call `router_controller_.reset()`: destroys the controller when there is
one. -/
def resetRouterController (w : World) : World :=
  { server := { w.server with router_controller_ := none }
    trace := w.trace ++ destroyedIf w.server.router_controller_ Effect.routerControllerDestroyed }

/-- The function `Server::connectToRouter`. -/
def connectToRouter (w : World) : World :=
  let w := w.emit (.LOG .LS_INFO "Connecting to the router...")
  -- Destroy the previous instance.
  let w := resetRouterController w
  -- Fill the connection parameters.
  let router_info : RouterInfo :=
    { address := w.server.settings_.routerAddress
      port := w.server.settings_.routerPort
      public_key := w.server.settings_.routerPublicKey
      host_key := w.server.settings_.hostKey }
  -- Connect to the router.
  let w := { w with server := { w.server with router_controller_ := some { router_info := router_info } } }
  let w := w.emit .routerControllerCreated
  w.emit (.routerControllerStart router_info)

/-- The function `Server::reloadUserList`.  Both `user_session_manager_` and
`authenticator_manager_` are dereferenced without a test. -/
def reloadUserList (w : World) : Option World :=
  -- Read the list of regular users.
  let user_list := w.server.settings_.userList
  match w.server.user_session_manager_ with
  | none => none
  | some usm =>
    -- Add a list of one-time users to the list of regular users.
    let user_list := UserList.merge user_list usm.userList
    match w.server.authenticator_manager_ with
    | none => none
    | some am =>
      -- Updating the list of users.
      some { server := { w.server with authenticator_manager_ := some { am with user_list := some user_list } }
             trace := w.trace ++ [Effect.setUserList user_list] }

/-- The function `Server::addFirewallRules`. -/
def addFirewallRules (env : Env) (w : World) : World :=
  if !env.currentExecFile then w
  else if !env.firewallValid then w
  else
    let w := w.emit (.addTcpRule kFirewallRuleName kFirewallRuleDecription w.server.settings_.tcpPort)
    if !env.addTcpRuleOk then w
    else w.emit (.LOG .LS_INFO "Rule is added to the firewall")

/-- The function `Server::deleteFirewallRules`. -/
def deleteFirewallRules (env : Env) (w : World) : World :=
  if !env.currentExecFile then w
  else if !env.firewallValid then w
  else w.emit (.deleteRuleByName kFirewallRuleName)

/-- The function `Server::updateConfiguration`.  The argument `disk` is what
`settings_.sync()` reads from the configuration file; the path is only used by a
debug assertion (`DCHECK_EQ`). -/
def updateConfiguration (disk : Settings) (_path : String) (error : Bool) (w : World) :
    Option World :=
  let w := w.emit (.LOG .LS_INFO "Configuration file change detected")
  if !error then
    -- Synchronize the parameters from the file.
    let w := { server := { w.server with settings_ := disk }, trace := w.trace ++ [Effect.settingsSync] }
    -- Reload user lists.
    match reloadUserList w with
    | none => none
    | some w =>
      -- If a controller instance already exists.
      match w.server.router_controller_ with
      | some router_controller =>
        if w.server.settings_.isRouterEnabled then
          -- Check if the connection parameters have changed.
          if router_controller.address ≠ w.server.settings_.routerAddress ∨
             router_controller.port ≠ w.server.settings_.routerPort ∨
             router_controller.publicKey ≠ w.server.settings_.routerPublicKey then
            -- Reconnect to the router with new parameters.
            let w := w.emit (.LOG .LS_INFO "Router parameters have changed")
            some (connectToRouter w)
          else some w
        else
          -- Destroy the controller.
          let w := w.emit (.LOG .LS_INFO "The router is now disabled")
          let w := resetRouterController w
          match w.server.user_session_manager_ with
          | none => none
          | some usm =>
            some { server := { w.server with
                     user_session_manager_ := some { usm with router_state := some RouterState.DISABLED } }
                   trace := w.trace ++ [Effect.setRouterState RouterState.DISABLED] }
      | none =>
        if w.server.settings_.isRouterEnabled then some (connectToRouter w)
        else some w
  else some w

/-- The call `settings_watcher_.reset()`. -/
def resetSettingsWatcher (w : World) : World :=
  { server := { w.server with settings_watcher_ := none }
    trace := w.trace ++ destroyedIf w.server.settings_watcher_ Effect.watcherDestroyed }

/-- The call `authenticator_manager_.reset()`. -/
def resetAuthenticatorManager (w : World) : World :=
  { server := { w.server with authenticator_manager_ := none }
    trace := w.trace ++ destroyedIf w.server.authenticator_manager_ Effect.authenticatorManagerDestroyed }

/-- The call `user_session_manager_.reset()`. -/
def resetUserSessionManager (w : World) : World :=
  { server := { w.server with user_session_manager_ := none }
    trace := w.trace ++ destroyedIf w.server.user_session_manager_ Effect.userSessionManagerDestroyed }

/-- The call `server_.reset()`. -/
def resetNetworkServer (w : World) : World :=
  { server := { w.server with server_ := none }
    trace := w.trace ++ destroyedIf w.server.server_ Effect.networkServerDestroyed }

/-- The destructor `Server::~Server`: its body, followed by the destruction of
the members the body left alive.  Of the owned subsystems only
`router_controller_` is not reset by the body, so it is released when the
members are destroyed, after the body has run. -/
def Server.destructor (env : Env) (w : World) : World :=
  let w := w.emit (.LOG .LS_INFO "Stopping the server...")
  let w := resetSettingsWatcher w
  let w := resetAuthenticatorManager w
  let w := resetUserSessionManager w
  let w := resetNetworkServer w
  let w := deleteFirewallRules env w
  let w := w.emit (.LOG .LS_INFO "Server is stopped")
  -- end of the body: the remaining members are destroyed
  resetRouterController w

/-- The statement `settings_watcher_ = std::make_unique<base::FilePathWatcher>(...)`:
the new watcher is built, then a previous one, if any, is destroyed. -/
def makeSettingsWatcher (w : World) : World :=
  { server := { w.server with settings_watcher_ := some { watched := none } }
    trace := w.trace ++ [Effect.watcherCreated] ++ destroyedIf w.server.settings_watcher_ Effect.watcherDestroyed }

/-- The statement `authenticator_manager_ = std::make_unique<...>(task_runner_, this)`. -/
def makeAuthenticatorManager (w : World) : World :=
  { server := { w.server with authenticator_manager_ := some { user_list := none, channels := [] } }
    trace := w.trace ++ [Effect.authenticatorManagerCreated] ++ destroyedIf w.server.authenticator_manager_ Effect.authenticatorManagerDestroyed }

/-- The statement `user_session_manager_ = std::make_unique<UserSessionManager>(task_runner_)`. -/
def makeUserSessionManager (w : World) : World :=
  { server := { w.server with user_session_manager_ := some { userList := [], router_state := none } }
    trace := w.trace ++ [Effect.userSessionManagerCreated] ++ destroyedIf w.server.user_session_manager_ Effect.userSessionManagerDestroyed }

/-- The function `Server::start`.  It has no return value: the result is the
world it leaves behind (`none` only if a null member were dereferenced). -/
def start (env : Env) (w : World) : Option World :=
  match w.server.server_ with
  | some _ =>
    some (w.emit (.DLOG .LS_WARNING "An attempt was start an already running server"))
  | none =>
    let w := w.emit (.LOG .LS_INFO "Starting the host server")
    let w := makeSettingsWatcher w
    let w : World :=
      { server := { w.server with settings_watcher_ := some { watched := some w.server.settings_.filePath } }
        trace := w.trace ++ [Effect.watch w.server.settings_.filePath] }
    let w := makeAuthenticatorManager w
    let w := makeUserSessionManager w
    let w := w.emit .userSessionManagerStart
    match reloadUserList w with
    | none => none
    | some w =>
      let w := addFirewallRules env w
      let w : World :=
        { server := { w.server with server_ := some { port := 0, listening := false } }
          trace := w.trace ++ [Effect.networkServerCreated] }
      let w : World :=
        { server := { w.server with
            server_ := some { port := w.server.settings_.tcpPort, listening := env.bindOk } }
          trace := w.trace ++ [Effect.networkServerStart w.server.settings_.tcpPort] }
      let w := if w.server.settings_.isRouterEnabled then connectToRouter w else w
      some (w.emit (.LOG .LS_INFO "Host server is started successfully"))

/-- The function `Server::startAuthentication`.  When there is no authenticator
manager the channel is dropped at the end of the function. -/
def startAuthentication (channel : NetworkChannel) (w : World) : World :=
  let channel := channel.setReadBufferSize kReadBufferSize
  let w := w.emit (.setReadBufferSize channel.id kReadBufferSize)
  let channel := channel.setNoDelay true
  let w := w.emit (.setNoDelay channel.id true)
  match w.server.authenticator_manager_ with
  | some am =>
    { server := { w.server with
        authenticator_manager_ := some { am with channels := am.channels ++ [channel] } }
      trace := w.trace ++ [Effect.addNewChannel channel] }
  | none => w

/-- The function `Server::onNewConnection`. -/
def onNewConnection (channel : NetworkChannel) (w : World) : World :=
  let w := w.emit (.LOG .LS_INFO "New DIRECT connection")
  startAuthentication channel w

/-- The function `Server::onClientConnected`. -/
def onClientConnected (channel : NetworkChannel) (w : World) : World :=
  let w := w.emit (.LOG .LS_INFO "New RELAY connection")
  startAuthentication channel w

/-- The calls on collaborators in a trace, log lines left out. -/
def collaboratorCalls (t : List Effect) : List Effect :=
  t.filter (fun e => !e.isLog)

/-- The three parameters `updateConfiguration` compares between the live
controller and the settings. -/
def comparedParametersDiffer (c : RouterController) (s : Settings) : Prop :=
  c.address ≠ s.routerAddress ∨ c.port ≠ s.routerPort ∨ c.publicKey ≠ s.routerPublicKey

instance (c : RouterController) (s : Settings) : Decidable (comparedParametersDiffer c s) := by
  unfold comparedParametersDiffer; infer_instance

/-- The `RouterParameters` of the specification as found in the settings. -/
def Settings.routerParameters (s : Settings) : RouterInfo :=
  { address := s.routerAddress
    port := s.routerPort
    public_key := s.routerPublicKey
    host_key := s.hostKey }

end host

namespace host

/-- Settings used in the examples: routing enabled towards `r.example.com:8060`. -/
def sampleSettings : Settings :=
  { filePath := "aspia_host.json"
    tcpPort := 8050
    isRouterEnabled := true
    routerAddress := "r.example.com"
    routerPort := 8060
    routerPublicKey := [75, 49]
    hostKey := [1, 2, 3]
    userList := ["alice"] }

/-- The authenticator manager of the examples. -/
def sampleAuthenticatorManager : ServerAuthenticatorManager :=
  { user_list := some ["alice"], channels := [] }

/-- The user session manager of the examples. -/
def sampleUserSessionManager : UserSessionManager :=
  { userList := [], router_state := none }

/-- The live controller of the examples, started with `sampleSettings`. -/
def sampleRouterController : RouterController :=
  { router_info := sampleSettings.routerParameters }

/-- The members of a running server whose controller was started with
`sampleSettings`. -/
def sampleServer : Server :=
  { settings_ := sampleSettings
    settings_watcher_ := some { watched := some "aspia_host.json" }
    authenticator_manager_ := some sampleAuthenticatorManager
    user_session_manager_ := some sampleUserSessionManager
    server_ := some { port := 8050, listening := true }
    router_controller_ := some sampleRouterController }

/-- The running sample server with an empty trace. -/
def sampleWorld : World := { server := sampleServer, trace := [] }

/-- A server on which `start` was never called, holding `sampleSettings`. -/
def stoppedWorld : World :=
  { server :=
      { settings_ := sampleSettings
        settings_watcher_ := none
        authenticator_manager_ := none
        user_session_manager_ := none
        server_ := none
        router_controller_ := none }
    trace := [] }

/-- The sample settings after an edit of the host key alone. -/
def hostKeyEdited : Settings := { sampleSettings with hostKey := [9, 9] }

/-- The sample settings after an edit of the router port alone, 8060 to 8061. -/
def portEdited : Settings := { sampleSettings with routerPort := 8061 }

/-- The sample settings after routing is switched off. -/
def routingDisabled : Settings := { sampleSettings with isRouterEnabled := false }

/-- A platform on which every firewall call succeeds and the port binds. -/
def allOk : Env :=
  { currentExecFile := true, firewallValid := true, addTcpRuleOk := true, bindOk := true }

/-- A channel that arrives with a small read buffer and no-delay off. -/
def sampleChannel : NetworkChannel := { id := 7, readBufferSize := 4096, noDelay := false }

/-- What `addFirewallRules` emits, given the platform's answers. -/
def firewallAddTrace (env : Env) (port : Nat) : List Effect :=
  if env.currentExecFile && env.firewallValid then
    Effect.addTcpRule kFirewallRuleName kFirewallRuleDecription port ::
      (if env.addTcpRuleOk then [Effect.LOG Severity.LS_INFO "Rule is added to the firewall"]
       else [])
  else []

/-- What `deleteFirewallRules` emits, given the platform's answers. -/
def firewallDeleteTrace (env : Env) : List Effect :=
  if env.currentExecFile && env.firewallValid then [Effect.deleteRuleByName kFirewallRuleName]
  else []

/-- What `connectToRouter` emits on a server `s`. -/
def connectTrace (s : Server) : List Effect :=
  [Effect.LOG Severity.LS_INFO "Connecting to the router..."] ++
    destroyedIf s.router_controller_ Effect.routerControllerDestroyed ++
    [Effect.routerControllerCreated, Effect.routerControllerStart s.settings_.routerParameters]

/-- What `start` emits on a server `s` that is not running. -/
def startTrace (env : Env) (s : Server) : List Effect :=
  [Effect.LOG Severity.LS_INFO "Starting the host server", Effect.watcherCreated] ++
    destroyedIf s.settings_watcher_ Effect.watcherDestroyed ++
    [Effect.watch s.settings_.filePath, Effect.authenticatorManagerCreated] ++
    destroyedIf s.authenticator_manager_ Effect.authenticatorManagerDestroyed ++
    [Effect.userSessionManagerCreated] ++
    destroyedIf s.user_session_manager_ Effect.userSessionManagerDestroyed ++
    [Effect.userSessionManagerStart,
     Effect.setUserList (UserList.merge s.settings_.userList [])] ++
    firewallAddTrace env s.settings_.tcpPort ++
    [Effect.networkServerCreated, Effect.networkServerStart s.settings_.tcpPort] ++
    (if s.settings_.isRouterEnabled then connectTrace s else [])

/-- Whether an effect is the start of the direct listener
(`NetworkServer::start`, which binds the port). -/
def Effect.isListenerStart : Effect → Bool
  | .networkServerStart _ => true
  | _ => false

end host

namespace client

/-- The enumeration `common::FileTaskTarget`, by its numeric value. -/
abbrev FileTaskTarget := Nat

/-- A shared pointer to a window proxy (`FileRemoveWindowProxy`,
`FileTransferWindowProxy`), by the identity of the object it points to. -/
abbrev WindowProxy := Nat

/-- The enumeration `FileTransfer::Type`, by its numeric value. -/
abbrev TransferType := Nat

/-- The threads of the program: the one the io task runner belongs to, and the
others. -/
inductive Thread where
  | owner
  | other (n : Nat)
  deriving DecidableEq, Repr

/-- The method `TaskRunner::belongsToCurrentThread` of `io_task_runner_`, given the
thread that is executing. -/
def belongsToCurrentThread (current : Thread) : Bool :=
  match current with
  | .owner => true
  | .other _ => false

/-- An operation of the proxy together with its arguments.  It stands both for
a closure posted to the task runner (`std::bind` of the proxy method to its
arguments) and for a call received by the `FileControl` target. -/
inductive Call where
  | getDriveList (target : FileTaskTarget)
  | getFileList (target : FileTaskTarget) (path : String)
  | createDirectory (target : FileTaskTarget) (path : String)
  | rename (target : FileTaskTarget) (old_path : String) (new_path : String)
  | remove (target : FileTaskTarget) (remove_window_proxy : WindowProxy) (items : List String)
  | transfer (transfer_window_proxy : WindowProxy) (transfer_type : TransferType)
      (source_path : String) (target_path : String) (items : List String)
  deriving DecidableEq, Repr

/-- The proxy, the queue of its task runner and the target it guards. -/
structure ProxyState where
  /-- Whether the pointer `file_control_` is non-null. -/
  file_control_ : Bool
  /-- The tasks posted to `io_task_runner_` and not yet run, oldest first. -/
  queue : List Call
  /-- The calls the `FileControl` target received, oldest first, each with the
  thread it was executed on. -/
  received : List (Thread × Call)
  deriving DecidableEq, Repr

/-- The method `TaskRunner::postTask`: the task goes to the tail of the queue. -/
def postTask (task : Call) (s : ProxyState) : ProxyState :=
  { s with queue := s.queue ++ [task] }

/-- A call on the target: `file_control_->op(args)` executed on thread `current`. -/
def invokeTarget (current : Thread) (c : Call) (s : ProxyState) : ProxyState :=
  { s with received := s.received ++ [(current, c)] }

/-- The function `FileControlProxy::dettach` (to be called on the owning thread,
which a debug assertion checks). -/
def dettach (s : ProxyState) : ProxyState :=
  { s with file_control_ := false }

/-- The function `FileControlProxy::getDriveList`, executed on thread `current`. -/
def getDriveList (target : FileTaskTarget) (current : Thread) (s : ProxyState) : ProxyState :=
  if !belongsToCurrentThread current then
    postTask (Call.getDriveList target) s
  else if s.file_control_ then
    invokeTarget current (Call.getDriveList target) s
  else s

/-- The function `FileControlProxy::getFileList`. -/
def getFileList (target : FileTaskTarget) (path : String) (current : Thread)
    (s : ProxyState) : ProxyState :=
  if !belongsToCurrentThread current then
    postTask (Call.getFileList target path) s
  else if s.file_control_ then
    invokeTarget current (Call.getFileList target path) s
  else s

/-- The function `FileControlProxy::createDirectory`. -/
def createDirectory (target : FileTaskTarget) (path : String) (current : Thread)
    (s : ProxyState) : ProxyState :=
  if !belongsToCurrentThread current then
    postTask (Call.createDirectory target path) s
  else if s.file_control_ then
    invokeTarget current (Call.createDirectory target path) s
  else s

/-- The function `FileControlProxy::rename`. -/
def rename (target : FileTaskTarget) (old_path new_path : String) (current : Thread)
    (s : ProxyState) : ProxyState :=
  if !belongsToCurrentThread current then
    postTask (Call.rename target old_path new_path) s
  else if s.file_control_ then
    invokeTarget current (Call.rename target old_path new_path) s
  else s

/-- The function `FileControlProxy::remove`. -/
def remove (target : FileTaskTarget) (remove_window_proxy : WindowProxy) (items : List String)
    (current : Thread) (s : ProxyState) : ProxyState :=
  if !belongsToCurrentThread current then
    postTask (Call.remove target remove_window_proxy items) s
  else if s.file_control_ then
    invokeTarget current (Call.remove target remove_window_proxy items) s
  else s

/-- The function `FileControlProxy::transfer`. -/
def transfer (transfer_window_proxy : WindowProxy) (transfer_type : TransferType)
    (source_path target_path : String) (items : List String) (current : Thread)
    (s : ProxyState) : ProxyState :=
  if !belongsToCurrentThread current then
    postTask (Call.transfer transfer_window_proxy transfer_type source_path target_path items) s
  else if s.file_control_ then
    invokeTarget current
      (Call.transfer transfer_window_proxy transfer_type source_path target_path items) s
  else s

/-- The proxy method a call names, applied to its arguments on thread `current`. -/
def applyCall (c : Call) (current : Thread) (s : ProxyState) : ProxyState :=
  match c with
  | .getDriveList target => getDriveList target current s
  | .getFileList target path => getFileList target path current s
  | .createDirectory target path => createDirectory target path current s
  | .rename target old_path new_path => rename target old_path new_path current s
  | .remove target remove_window_proxy items => remove target remove_window_proxy items current s
  | .transfer transfer_window_proxy transfer_type source_path target_path items =>
      transfer transfer_window_proxy transfer_type source_path target_path items current s

/-- The task runner takes the task at the head of its queue and runs it on the
owning thread. -/
def runNext (s : ProxyState) : ProxyState :=
  match s.queue with
  | [] => s
  | task :: rest => applyCall task Thread.owner { s with queue := rest }

/-- The task runner runs `n` tasks, one after the other. -/
def runTasks : Nat → ProxyState → ProxyState
  | 0, s => s
  | n + 1, s => runTasks n (runNext s)

/-- What can happen to a proxy: a call of one of its operations from some
thread, a `dettach`, or the task runner running its next task. -/
inductive Event where
  | call (current : Thread) (c : Call)
  | dettach
  | runNext
  deriving DecidableEq, Repr

/-- One event applied to the state. -/
def step (s : ProxyState) : Event → ProxyState
  | .call current c => applyCall c current s
  | .dettach => dettach s
  | .runNext => runNext s

/-- A sequence of events applied in order. -/
def run (events : List Event) (s : ProxyState) : ProxyState :=
  events.foldl step s

/-- A freshly built proxy: attached, nothing posted, nothing received. -/
def initial : ProxyState := { file_control_ := true, queue := [], received := [] }

end client

namespace aspia

/-- The fields of `proto::desktop::CursorShape` read by the decoder: the flags
(`uint32`), the dimensions and the hotspot (`int32`) and the compressed bytes. -/
structure CursorShape where
  flags : Nat
  width : Int
  height : Int
  hotspot_x : Int
  hotspot_y : Int
  data : List Nat
  deriving DecidableEq, Repr

/-- A decoded cursor (`MouseCursor`): the image bytes, the size and the hotspot
it was constructed with. -/
structure MouseCursor where
  data : List Nat
  width : Int
  height : Int
  hotspot_x : Int
  hotspot_y : Int
  deriving DecidableEq, Repr

/-- The cursor cache (`MouseCursorCache`), whose code is not part of the
available sources: its capacity and its entries. -/
structure MouseCursorCache where
  size : Nat
  items : List MouseCursor
  deriving DecidableEq, Repr

/-- What one call of `DecompressorZstd::process` reports: its return value
(whether to call again), the input bytes consumed and the bytes written. -/
structure ProcessResult where
  again : Bool
  consumed : Nat
  written : List Nat
  deriving DecidableEq, Repr

/-- The parts `cursor_decoder.cc` uses and does not define: the two flag
constants of the protocol, the width of `size_t`, the decompressor and the
operations of the cache. -/
structure Externals where
  /-- The constant `proto::desktop::CursorShape::CACHE`. -/
  CACHE : Nat
  /-- The constant `proto::desktop::CursorShape::RESET_CACHE`. -/
  RESET_CACHE : Nat
  /-- The number of bits of `size_t`. -/
  sizeBits : Nat
  /-- The call `decompressor_->process`, given the remaining input and the
  remaining capacity of the output. -/
  process : List Nat → Nat → ProcessResult
  /-- The function `MouseCursorCache::isValidCacheSize`. -/
  isValidCacheSize : Nat → Bool
  /-- The constructor `MouseCursorCache(cache_size)`. -/
  newCache : Nat → MouseCursorCache
  /-- The method `MouseCursorCache::add`: the cache afterwards and the index. -/
  add : MouseCursorCache → MouseCursor → MouseCursorCache × Nat
  /-- The method `MouseCursorCache::get`. -/
  get : MouseCursorCache → Nat → Option MouseCursor

/-- The value `std::numeric_limits<int16_t>::max()`. -/
def int16_max : Int := 32767

/-- The value `sizeof(uint32_t)`. -/
def sizeof_uint32 : Nat := 4

/-- The result of an `int` operation whose exact value is `x`: the value
wrapped to 32 bits, two's complement. -/
def wrapInt32 (x : Int) : Int := (x + 2 ^ 31) % 2 ^ 32 - 2 ^ 31

/-- The conversion of an `int` to `size_t` (modulo `2 ^ bits`). -/
def toSizeT (bits : Nat) (x : Int) : Nat := (x % 2 ^ bits).toNat

/-- The expression `size.width() * size.height() * sizeof(uint32_t)` assigned to
`size_t image_size`: the product of the two `int`s is an `int`, which is
converted to `size_t` and multiplied by 4 in `size_t`. -/
def imageSize (bits : Nat) (width height : Int) : Nat :=
  (toSizeT bits (wrapInt32 (width * height)) * sizeof_uint32) % 2 ^ bits

/-- The difference of two `size_t` values. -/
def subSizeT (bits : Nat) (a b : Nat) : Nat := (a + 2 ^ bits - b % 2 ^ bits) % 2 ^ bits

/-- Writes `bytes` into `buffer` from position `offset` on. -/
def writeAt (buffer : List Nat) (offset : Nat) (bytes : List Nat) : List Nat :=
  buffer.take offset ++ bytes ++ buffer.drop (offset + bytes.length)

/-- The loop of `CursorDecoder::decompressCursor`, run for at most `fuel`
rounds; `none` when the decompressor still asks to be called again. -/
def decompressLoop (ext : Externals) (input : List Nat) (output_size : Nat) :
    Nat → Nat → Nat → List Nat → Option (List Nat)
  | 0, _, _, _ => none
  | fuel + 1, used, filled, output =>
    let r := ext.process (input.drop used) (subSizeT ext.sizeBits output_size filled)
    let output := writeAt output filled r.written
    let used := used + r.consumed
    let filled := filled + r.written.length
    if r.again then decompressLoop ext input output_size fuel used filled output
    else some output

/-- The function `CursorDecoder::decompressCursor`: the returned flag and the
output buffer afterwards. -/
def decompressCursor (ext : Externals) (fuel : Nat) (cursor_shape : CursorShape)
    (output : List Nat) (output_size : Nat) : Option (Bool × List Nat) :=
  if cursor_shape.data.isEmpty then some (false, output)
  else
    match decompressLoop ext cursor_shape.data output_size fuel 0 0 output with
    | none => none
    | some output => some (true, output)

/-- What `decode` does besides returning: the warnings it logs and the buffer
it allocates. -/
inductive DecodeEffect where
  | warnOutOfBounds (width height : Int)
  | allocate (image_size : Nat)
  | warnNoCacheReset
  deriving DecidableEq, Repr

/-- How a call of `decode` ends: it returns a cursor or null, or the
decompression loop did not end within the fuel, or a null `cache_` was
dereferenced. -/
inductive Outcome where
  | returned (cursor : Option MouseCursor)
  | outOfFuel
  | nullDereference
  deriving DecidableEq, Repr

/-- The result of a call of `decode`: how it ended, the member `cache_`
afterwards and what was logged and allocated, oldest first. -/
structure DecodeResult where
  outcome : Outcome
  cache_ : Option MouseCursorCache
  trace : List DecodeEffect
  deriving DecidableEq, Repr

/-- The end of `CursorDecoder::decode`, from the test of `cache_` on: the cursor
is added to the cache and read back from it. -/
def addToCache (ext : Externals) (cache_ : Option MouseCursorCache)
    (mouse_cursor : MouseCursor) (trace : List DecodeEffect) : DecodeResult :=
  match cache_ with
  | none =>
    { outcome := .returned none, cache_ := cache_, trace := trace ++ [.warnNoCacheReset] }
  | some cache =>
    let (cache, cache_index) := ext.add cache mouse_cursor
    { outcome := .returned (ext.get cache cache_index), cache_ := some cache, trace := trace }

/-- The function `CursorDecoder::decode`, on a decoder whose member `cache_` is
given; the decompression loop runs for at most `fuel` rounds. -/
def decode (ext : Externals) (fuel : Nat) (cache_ : Option MouseCursorCache)
    (cursor_shape : CursorShape) : DecodeResult :=
  if cursor_shape.flags &&& ext.CACHE ≠ 0 then
    -- Bits 0-4 contain the cursor position in the cache.
    let cache_index := cursor_shape.flags &&& 0x1F
    match cache_ with
    | none => { outcome := .nullDereference, cache_ := cache_, trace := [] }
    | some cache =>
      { outcome := .returned (ext.get cache cache_index), cache_ := cache_, trace := [] }
  else
    let width := cursor_shape.width
    let height := cursor_shape.height
    if width ≤ 0 ∨ width > int16_max / 2 ∨ height ≤ 0 ∨ height > int16_max / 2 then
      { outcome := .returned none, cache_ := cache_
        trace := [.warnOutOfBounds width height] }
    else
      let image_size := imageSize ext.sizeBits width height
      let image := List.replicate image_size 0
      let trace := [DecodeEffect.allocate image_size]
      match decompressCursor ext fuel cursor_shape image image_size with
      | none => { outcome := .outOfFuel, cache_ := cache_, trace := trace }
      | some (false, _) => { outcome := .returned none, cache_ := cache_, trace := trace }
      | some (true, image) =>
        let mouse_cursor : MouseCursor :=
          { data := image, width := width, height := height
            hotspot_x := cursor_shape.hotspot_x, hotspot_y := cursor_shape.hotspot_y }
        if cursor_shape.flags &&& ext.RESET_CACHE ≠ 0 then
          let cache_size := cursor_shape.flags &&& 0x1F
          if !ext.isValidCacheSize cache_size then
            { outcome := .returned none, cache_ := cache_, trace := trace }
          else
            addToCache ext (some (ext.newCache cache_size)) mouse_cursor trace
        else
          addToCache ext cache_ mouse_cursor trace

/-- Externals used in the examples: the protocol's flag values, a 64-bit
`size_t`, a decompressor that copies its input, and a cache kept as a list. -/
def sampleExternals : Externals :=
  { CACHE := 128
    RESET_CACHE := 64
    sizeBits := 64
    process := fun input capacity =>
      { again := false, consumed := input.length, written := input.take capacity }
    isValidCacheSize := fun n => decide (2 ≤ n ∧ n ≤ 31)
    newCache := fun n => { size := n, items := [] }
    add := fun c m => ({ c with items := c.items ++ [m] }, c.items.length)
    get := fun c i => c.items.get? i }

/-- A cursor shape of width 0, without the `CACHE` flag. -/
def zeroWidthShape : CursorShape :=
  { flags := 64 + 4, width := 0, height := 32, hotspot_x := 0, hotspot_y := 0, data := [1, 2] }

/-- A cursor shape with the largest dimensions the check lets through. -/
def largestShape : CursorShape :=
  { flags := 64 + 4, width := 16383, height := 16383, hotspot_x := 0, hotspot_y := 0,
    data := [] }

end aspia

namespace host

/-! ## Configuration reconciliation: the five branches of `updateConfiguration` -/

/-- A live controller, routing enabled, a compared parameter changed: reconnect. -/
theorem updateConfiguration_changed (disk : Settings) (path : String) (w : World)
    (am : ServerAuthenticatorManager) (usm : UserSessionManager) (rc : RouterController)
    (ham : w.server.authenticator_manager_ = some am)
    (husm : w.server.user_session_manager_ = some usm)
    (hrc : w.server.router_controller_ = some rc)
    (hen : disk.isRouterEnabled = true)
    (hd : comparedParametersDiffer rc disk) :
    updateConfiguration disk path false w = some
      { server := { w.server with
          settings_ := disk
          authenticator_manager_ :=
            some { am with user_list := some (UserList.merge disk.userList usm.userList) }
          router_controller_ := some { router_info := disk.routerParameters } }
        trace := w.trace ++
          [ Effect.LOG Severity.LS_INFO "Configuration file change detected",
            Effect.settingsSync,
            Effect.setUserList (UserList.merge disk.userList usm.userList),
            Effect.LOG Severity.LS_INFO "Router parameters have changed",
            Effect.LOG Severity.LS_INFO "Connecting to the router...",
            Effect.routerControllerDestroyed,
            Effect.routerControllerCreated,
            Effect.routerControllerStart disk.routerParameters ] } := by
  obtain ⟨⟨st, sw, am1, usm1, srv, rc1⟩, tr⟩ := w
  simp only at ham husm hrc
  subst ham husm hrc
  unfold comparedParametersDiffer at hd
  simp [updateConfiguration, reloadUserList, connectToRouter, resetRouterController, destroyedIf,
    World.emit, hen, hd, Settings.routerParameters]

/-- A live controller, routing enabled, the compared parameters unchanged: only
the settings and the user list are refreshed. -/
theorem updateConfiguration_unchanged (disk : Settings) (path : String) (w : World)
    (am : ServerAuthenticatorManager) (usm : UserSessionManager) (rc : RouterController)
    (ham : w.server.authenticator_manager_ = some am)
    (husm : w.server.user_session_manager_ = some usm)
    (hrc : w.server.router_controller_ = some rc)
    (hen : disk.isRouterEnabled = true)
    (hd : ¬ comparedParametersDiffer rc disk) :
    updateConfiguration disk path false w = some
      { server := { w.server with
          settings_ := disk
          authenticator_manager_ :=
            some { am with user_list := some (UserList.merge disk.userList usm.userList) } }
        trace := w.trace ++
          [ Effect.LOG Severity.LS_INFO "Configuration file change detected",
            Effect.settingsSync,
            Effect.setUserList (UserList.merge disk.userList usm.userList) ] } := by
  obtain ⟨⟨st, sw, am1, usm1, srv, rc1⟩, tr⟩ := w
  simp only at ham husm hrc
  subst ham husm hrc
  unfold comparedParametersDiffer at hd
  simp [updateConfiguration, reloadUserList, World.emit, hen, hd]

/-- A live controller, routing disabled: the controller is destroyed and
`DISABLED` is published. -/
theorem updateConfiguration_disabled (disk : Settings) (path : String) (w : World)
    (am : ServerAuthenticatorManager) (usm : UserSessionManager) (rc : RouterController)
    (ham : w.server.authenticator_manager_ = some am)
    (husm : w.server.user_session_manager_ = some usm)
    (hrc : w.server.router_controller_ = some rc)
    (hen : disk.isRouterEnabled = false) :
    updateConfiguration disk path false w = some
      { server := { w.server with
          settings_ := disk
          authenticator_manager_ :=
            some { am with user_list := some (UserList.merge disk.userList usm.userList) }
          user_session_manager_ := some { usm with router_state := some RouterState.DISABLED }
          router_controller_ := none }
        trace := w.trace ++
          [ Effect.LOG Severity.LS_INFO "Configuration file change detected",
            Effect.settingsSync,
            Effect.setUserList (UserList.merge disk.userList usm.userList),
            Effect.LOG Severity.LS_INFO "The router is now disabled",
            Effect.routerControllerDestroyed,
            Effect.setRouterState RouterState.DISABLED ] } := by
  obtain ⟨⟨st, sw, am1, usm1, srv, rc1⟩, tr⟩ := w
  simp only at ham husm hrc
  subst ham husm hrc
  simp [updateConfiguration, reloadUserList, resetRouterController, destroyedIf, World.emit, hen]

/-- No controller, routing enabled: connect. -/
theorem updateConfiguration_connect (disk : Settings) (path : String) (w : World)
    (am : ServerAuthenticatorManager) (usm : UserSessionManager)
    (ham : w.server.authenticator_manager_ = some am)
    (husm : w.server.user_session_manager_ = some usm)
    (hrc : w.server.router_controller_ = none)
    (hen : disk.isRouterEnabled = true) :
    updateConfiguration disk path false w = some
      { server := { w.server with
          settings_ := disk
          authenticator_manager_ :=
            some { am with user_list := some (UserList.merge disk.userList usm.userList) }
          router_controller_ := some { router_info := disk.routerParameters } }
        trace := w.trace ++
          [ Effect.LOG Severity.LS_INFO "Configuration file change detected",
            Effect.settingsSync,
            Effect.setUserList (UserList.merge disk.userList usm.userList),
            Effect.LOG Severity.LS_INFO "Connecting to the router...",
            Effect.routerControllerCreated,
            Effect.routerControllerStart disk.routerParameters ] } := by
  obtain ⟨⟨st, sw, am1, usm1, srv, rc1⟩, tr⟩ := w
  simp only at ham husm hrc
  subst ham husm hrc
  simp [updateConfiguration, reloadUserList, connectToRouter, resetRouterController, destroyedIf,
    World.emit, hen, Settings.routerParameters]

/-- No controller, routing disabled: only the settings and the user list are
refreshed. -/
theorem updateConfiguration_idle (disk : Settings) (path : String) (w : World)
    (am : ServerAuthenticatorManager) (usm : UserSessionManager)
    (ham : w.server.authenticator_manager_ = some am)
    (husm : w.server.user_session_manager_ = some usm)
    (hrc : w.server.router_controller_ = none)
    (hen : disk.isRouterEnabled = false) :
    updateConfiguration disk path false w = some
      { server := { w.server with
          settings_ := disk
          authenticator_manager_ :=
            some { am with user_list := some (UserList.merge disk.userList usm.userList) } }
        trace := w.trace ++
          [ Effect.LOG Severity.LS_INFO "Configuration file change detected",
            Effect.settingsSync,
            Effect.setUserList (UserList.merge disk.userList usm.userList) ] } := by
  obtain ⟨⟨st, sw, am1, usm1, srv, rc1⟩, tr⟩ := w
  simp only at ham husm hrc
  subst ham husm hrc
  simp [updateConfiguration, reloadUserList, World.emit, hen]

/-- The settings equal the live controller's parameters in the three compared
fields whenever they equal them in all four. -/
theorem not_differ_of_eq (rc : RouterController) (disk : Settings)
    (h : rc.router_info = disk.routerParameters) : ¬ comparedParametersDiffer rc disk := by
  simp [comparedParametersDiffer, RouterController.address, RouterController.port,
    RouterController.publicKey, h, Settings.routerParameters]

/-- A controller started from the settings does not differ from them. -/
theorem not_differ_self (disk : Settings) :
    ¬ comparedParametersDiffer { router_info := disk.routerParameters } disk :=
  not_differ_of_eq _ _ rfl

end host

namespace host

/-! ## Claims about configuration reconciliation -/

/-- C1 (as stated, refuted): the running sample server receives a non-error change
event whose settings differ from the live controller's parameters in `hostKey`
only, routing still enabled; the controller is kept as it is, nothing is
destroyed or created and `connectToRouter` is not called. -/
theorem C1_hostKey_only_no_reconnect :
    sampleRouterController.router_info ≠ hostKeyEdited.routerParameters ∧
    hostKeyEdited.isRouterEnabled = true ∧
    sampleWorld.server.router_controller_ = some sampleRouterController ∧
    updateConfiguration hostKeyEdited "aspia_host.json" false sampleWorld = some
      { server := { sampleServer with settings_ := hostKeyEdited }
        trace :=
          [ Effect.LOG Severity.LS_INFO "Configuration file change detected",
            Effect.settingsSync,
            Effect.setUserList ["alice"] ] } ∧
    ¬ (∃ w1, updateConfiguration hostKeyEdited "aspia_host.json" false sampleWorld = some w1 ∧
        (Effect.routerControllerDestroyed ∈ w1.trace ∨
          Effect.routerControllerCreated ∈ w1.trace)) := by
  have h := updateConfiguration_unchanged hostKeyEdited "aspia_host.json" sampleWorld
    sampleAuthenticatorManager sampleUserSessionManager sampleRouterController rfl rfl rfl rfl
    (by decide)
  refine ⟨by decide, rfl, rfl, ?_, ?_⟩
  · rw [h]; rfl
  · rintro ⟨w1, h1, hm⟩
    rw [h] at h1
    cases h1
    simp [sampleWorld] at hm

/-- C1 (amended): on a non-error change event with a live controller and routing
enabled in the re-read settings, the controller is destroyed and a new one is
created by `connectToRouter` exactly when the settings differ from the live
controller in address, port or public key; otherwise (also when the host key
differs) the controller is kept and nothing is destroyed or created. -/
theorem C1_reconnect_iff_compared_parameter_differs (disk : Settings) (path : String)
    (w : World) (am : ServerAuthenticatorManager) (usm : UserSessionManager)
    (rc : RouterController)
    (ham : w.server.authenticator_manager_ = some am)
    (husm : w.server.user_session_manager_ = some usm)
    (hrc : w.server.router_controller_ = some rc)
    (hen : disk.isRouterEnabled = true) :
    (comparedParametersDiffer rc disk →
      ∃ w1, updateConfiguration disk path false w = some w1 ∧
        w1.server.router_controller_ = some { router_info := disk.routerParameters } ∧
        w1.trace = w.trace ++
          [ Effect.LOG Severity.LS_INFO "Configuration file change detected",
            Effect.settingsSync,
            Effect.setUserList (UserList.merge disk.userList usm.userList),
            Effect.LOG Severity.LS_INFO "Router parameters have changed",
            Effect.LOG Severity.LS_INFO "Connecting to the router...",
            Effect.routerControllerDestroyed,
            Effect.routerControllerCreated,
            Effect.routerControllerStart disk.routerParameters ]) ∧
    (¬ comparedParametersDiffer rc disk →
      ∃ w1, updateConfiguration disk path false w = some w1 ∧
        w1.server.router_controller_ = some rc ∧
        w1.trace = w.trace ++
          [ Effect.LOG Severity.LS_INFO "Configuration file change detected",
            Effect.settingsSync,
            Effect.setUserList (UserList.merge disk.userList usm.userList) ]) := by
  constructor
  · intro hd
    exact ⟨_, updateConfiguration_changed disk path w am usm rc ham husm hrc hen hd, rfl, rfl⟩
  · intro hd
    exact ⟨_, updateConfiguration_unchanged disk path w am usm rc ham husm hrc hen hd, hrc, rfl⟩

/-- C1 (amended), at the sample server: an edit of the port reconnects, an edit of
the host key does not. -/
theorem C1_reconnect_iff_compared_parameter_differs_witness :
    (∃ w1, updateConfiguration portEdited "aspia_host.json" false sampleWorld = some w1 ∧
        w1.server.router_controller_ = some { router_info := portEdited.routerParameters } ∧
        w1.trace = sampleWorld.trace ++
          [ Effect.LOG Severity.LS_INFO "Configuration file change detected",
            Effect.settingsSync,
            Effect.setUserList
              (UserList.merge portEdited.userList sampleUserSessionManager.userList),
            Effect.LOG Severity.LS_INFO "Router parameters have changed",
            Effect.LOG Severity.LS_INFO "Connecting to the router...",
            Effect.routerControllerDestroyed,
            Effect.routerControllerCreated,
            Effect.routerControllerStart portEdited.routerParameters ]) ∧
    (∃ w1, updateConfiguration hostKeyEdited "aspia_host.json" false sampleWorld = some w1 ∧
        w1.server.router_controller_ = some sampleRouterController ∧
        w1.trace = sampleWorld.trace ++
          [ Effect.LOG Severity.LS_INFO "Configuration file change detected",
            Effect.settingsSync,
            Effect.setUserList
              (UserList.merge hostKeyEdited.userList sampleUserSessionManager.userList) ]) :=
  ⟨(C1_reconnect_iff_compared_parameter_differs portEdited "aspia_host.json" sampleWorld
      sampleAuthenticatorManager sampleUserSessionManager sampleRouterController
      rfl rfl rfl rfl).1 (by decide),
   (C1_reconnect_iff_compared_parameter_differs hostKeyEdited "aspia_host.json" sampleWorld
      sampleAuthenticatorManager sampleUserSessionManager sampleRouterController
      rfl rfl rfl rfl).2 (by decide)⟩

end host

namespace host

/-- C2: reconciliation is idempotent.  For every server whose managers exist and
every settings snapshot, a second non-error `updateConfiguration` with the same
settings leaves every member as the first left it and only logs the event,
re-reads the settings and pushes the user list again: no controller is
destroyed, created or started and `connectToRouter` is not called.  And when the
live controller's parameters equal the settings' and routing is enabled, already
a single application keeps the controller and performs no reconnect. -/
theorem C2_reconciliation_idempotent (disk : Settings) (path1 path2 : String) (w : World)
    (am : ServerAuthenticatorManager) (usm : UserSessionManager)
    (ham : w.server.authenticator_manager_ = some am)
    (husm : w.server.user_session_manager_ = some usm) :
    ∃ w1, updateConfiguration disk path1 false w = some w1 ∧
      updateConfiguration disk path2 false w1 = some
        { server := w1.server
          trace := w1.trace ++
            [ Effect.LOG Severity.LS_INFO "Configuration file change detected",
              Effect.settingsSync,
              Effect.setUserList (UserList.merge disk.userList usm.userList) ] } ∧
      (∀ rc, w.server.router_controller_ = some rc →
        rc.router_info = disk.routerParameters → disk.isRouterEnabled = true →
        w1.server.router_controller_ = some rc ∧
        w1.trace = w.trace ++
          [ Effect.LOG Severity.LS_INFO "Configuration file change detected",
            Effect.settingsSync,
            Effect.setUserList (UserList.merge disk.userList usm.userList) ]) := by
  obtain ⟨⟨st, sw, am1, usm1, srv, rc1⟩, tr⟩ := w
  simp only at ham husm
  subst ham husm
  cases rc1 with
  | none =>
    cases hen : disk.isRouterEnabled with
    | false =>
      refine ⟨_, updateConfiguration_idle disk path1 _ am usm rfl rfl rfl hen, ?_, ?_⟩
      · rw [updateConfiguration_idle disk path2 ⟨_, _⟩ _ usm rfl rfl rfl hen]
      · intro rc h; cases h
    | true =>
      refine ⟨_, updateConfiguration_connect disk path1 _ am usm rfl rfl rfl hen, ?_, ?_⟩
      · rw [updateConfiguration_unchanged disk path2 ⟨_, _⟩ _ usm _ rfl rfl rfl hen
          (not_differ_self disk)]
      · intro rc h; cases h
  | some rc0 =>
    cases hen : disk.isRouterEnabled with
    | false =>
      refine ⟨_, updateConfiguration_disabled disk path1 _ am usm rc0 rfl rfl rfl hen, ?_, ?_⟩
      · rw [updateConfiguration_idle disk path2 ⟨_, _⟩ _ _ rfl rfl rfl hen]
      · intro rc _ _ h; cases h
    | true =>
      by_cases hd : comparedParametersDiffer rc0 disk
      · refine ⟨_, updateConfiguration_changed disk path1 _ am usm rc0 rfl rfl rfl hen hd,
          ?_, ?_⟩
        · rw [updateConfiguration_unchanged disk path2 ⟨_, _⟩ _ usm _ rfl rfl rfl hen
            (not_differ_self disk)]
        · intro rc h heq _
          cases h
          exact absurd hd (not_differ_of_eq _ disk heq)
      · refine ⟨_, updateConfiguration_unchanged disk path1 _ am usm rc0 rfl rfl rfl hen hd,
          ?_, ?_⟩
        · rw [updateConfiguration_unchanged disk path2 ⟨_, _⟩ _ usm rc0 rfl rfl rfl hen hd]
        · intro rc h _ _
          cases h
          exact ⟨rfl, rfl⟩

end host

namespace host

/-- C2 at the sample server: the port edit reconnects on the first event and a
second event with the same settings changes no member and makes no router call;
and an event whose settings equal the live controller's parameters keeps the
controller. -/
theorem C2_reconciliation_idempotent_witness :
    (∃ w1, updateConfiguration portEdited "aspia_host.json" false sampleWorld = some w1 ∧
      updateConfiguration portEdited "aspia_host.json" false w1 = some
        { server := w1.server
          trace := w1.trace ++
            [ Effect.LOG Severity.LS_INFO "Configuration file change detected",
              Effect.settingsSync,
              Effect.setUserList
                (UserList.merge portEdited.userList sampleUserSessionManager.userList) ] }) ∧
    (∃ w1, updateConfiguration sampleSettings "aspia_host.json" false sampleWorld = some w1 ∧
      w1.server.router_controller_ = some sampleRouterController ∧
      w1.trace = sampleWorld.trace ++
        [ Effect.LOG Severity.LS_INFO "Configuration file change detected",
          Effect.settingsSync,
          Effect.setUserList
            (UserList.merge sampleSettings.userList sampleUserSessionManager.userList) ]) :=
  ⟨match C2_reconciliation_idempotent portEdited "aspia_host.json" "aspia_host.json"
      sampleWorld sampleAuthenticatorManager sampleUserSessionManager rfl rfl with
    | ⟨w1, h1, h2, _⟩ => ⟨w1, h1, h2⟩,
   match C2_reconciliation_idempotent sampleSettings "aspia_host.json" "aspia_host.json"
      sampleWorld sampleAuthenticatorManager sampleUserSessionManager rfl rfl with
    | ⟨w1, h1, _, h3⟩ => ⟨w1, h1, h3 sampleRouterController rfl rfl rfl⟩⟩

/-- C3: on a non-error change event with a live controller and routing disabled in
the re-read settings (managers present), `updateConfiguration` destroys the
controller once, leaving none, and calls `setRouterState(DISABLED)` once on the
session manager; a further non-error event whose settings still have routing
disabled destroys nothing and publishes no router state. -/
theorem C3_disable_destroys_and_publishes_once (disk disk2 : Settings) (path path2 : String)
    (w : World) (am : ServerAuthenticatorManager) (usm : UserSessionManager)
    (rc : RouterController)
    (ham : w.server.authenticator_manager_ = some am)
    (husm : w.server.user_session_manager_ = some usm)
    (hrc : w.server.router_controller_ = some rc)
    (hdis : disk.isRouterEnabled = false)
    (hdis2 : disk2.isRouterEnabled = false) :
    ∃ w1 w2, updateConfiguration disk path false w = some w1 ∧
      w1.server.router_controller_ = none ∧
      w1.server.user_session_manager_ =
        some { usm with router_state := some RouterState.DISABLED } ∧
      w1.trace = w.trace ++
        [ Effect.LOG Severity.LS_INFO "Configuration file change detected",
          Effect.settingsSync,
          Effect.setUserList (UserList.merge disk.userList usm.userList),
          Effect.LOG Severity.LS_INFO "The router is now disabled",
          Effect.routerControllerDestroyed,
          Effect.setRouterState RouterState.DISABLED ] ∧
      updateConfiguration disk2 path2 false w1 = some w2 ∧
      w2.server.router_controller_ = none ∧
      w2.server.user_session_manager_ = w1.server.user_session_manager_ ∧
      w2.trace = w1.trace ++
        [ Effect.LOG Severity.LS_INFO "Configuration file change detected",
          Effect.settingsSync,
          Effect.setUserList (UserList.merge disk2.userList usm.userList) ] := by
  obtain ⟨⟨st, sw, am1, usm1, srv, rc1⟩, tr⟩ := w
  simp only at ham husm hrc
  subst ham husm hrc
  refine ⟨_, _, updateConfiguration_disabled disk path _ am usm rc rfl rfl rfl hdis,
    rfl, rfl, rfl, updateConfiguration_idle disk2 path2 ⟨_, _⟩ _ _ rfl rfl rfl hdis2,
    rfl, rfl, rfl⟩

/-- C3 at the sample server: routing is switched off, then a second event arrives. -/
theorem C3_disable_destroys_and_publishes_once_witness :
    ∃ w1 w2, updateConfiguration routingDisabled "aspia_host.json" false sampleWorld = some w1 ∧
      w1.server.router_controller_ = none ∧
      w1.server.user_session_manager_ =
        some { sampleUserSessionManager with router_state := some RouterState.DISABLED } ∧
      w1.trace = sampleWorld.trace ++
        [ Effect.LOG Severity.LS_INFO "Configuration file change detected",
          Effect.settingsSync,
          Effect.setUserList
            (UserList.merge routingDisabled.userList sampleUserSessionManager.userList),
          Effect.LOG Severity.LS_INFO "The router is now disabled",
          Effect.routerControllerDestroyed,
          Effect.setRouterState RouterState.DISABLED ] ∧
      updateConfiguration routingDisabled "aspia_host.json" false w1 = some w2 ∧
      w2.server.router_controller_ = none ∧
      w2.server.user_session_manager_ = w1.server.user_session_manager_ ∧
      w2.trace = w1.trace ++
        [ Effect.LOG Severity.LS_INFO "Configuration file change detected",
          Effect.settingsSync,
          Effect.setUserList
            (UserList.merge routingDisabled.userList sampleUserSessionManager.userList) ] :=
  C3_disable_destroys_and_publishes_once routingDisabled routingDisabled
    "aspia_host.json" "aspia_host.json" sampleWorld sampleAuthenticatorManager
    sampleUserSessionManager sampleRouterController rfl rfl rfl rfl rfl

/-- C4: whenever a non-error change event makes `updateConfiguration` connect to
the router (managers present, routing enabled, and either no controller existed
or one existed and a compared parameter changed), exactly one controller is
constructed, a previous controller is destroyed before the new one is created,
one controller exists afterwards, and it is started with the address, port,
public key and host key of the current settings. -/
theorem C4_connect_constructs_one_controller (disk : Settings) (path : String) (w : World)
    (am : ServerAuthenticatorManager) (usm : UserSessionManager)
    (ham : w.server.authenticator_manager_ = some am)
    (husm : w.server.user_session_manager_ = some usm)
    (hen : disk.isRouterEnabled = true)
    (hcase : w.server.router_controller_ = none ∨
      ∃ rc, w.server.router_controller_ = some rc ∧ comparedParametersDiffer rc disk) :
    ∃ w1, updateConfiguration disk path false w = some w1 ∧
      w1.server.settings_ = disk ∧
      w1.server.router_controller_ = some
        { router_info :=
            { address := disk.routerAddress
              port := disk.routerPort
              public_key := disk.routerPublicKey
              host_key := disk.hostKey } } ∧
      w1.trace = w.trace ++
        [ Effect.LOG Severity.LS_INFO "Configuration file change detected",
          Effect.settingsSync,
          Effect.setUserList (UserList.merge disk.userList usm.userList) ] ++
        (if w.server.router_controller_.isSome then
          [ Effect.LOG Severity.LS_INFO "Router parameters have changed",
            Effect.LOG Severity.LS_INFO "Connecting to the router...",
            Effect.routerControllerDestroyed ]
         else [ Effect.LOG Severity.LS_INFO "Connecting to the router..." ]) ++
        [ Effect.routerControllerCreated,
          Effect.routerControllerStart
            { address := disk.routerAddress
              port := disk.routerPort
              public_key := disk.routerPublicKey
              host_key := disk.hostKey } ] := by
  rcases hcase with hrc | ⟨rc, hrc, hd⟩
  · refine ⟨_, updateConfiguration_connect disk path w am usm ham husm hrc hen, rfl, rfl, ?_⟩
    simp [hrc, Settings.routerParameters]
  · refine ⟨_, updateConfiguration_changed disk path w am usm rc ham husm hrc hen hd,
      rfl, rfl, ?_⟩
    simp [hrc, Settings.routerParameters]

/-- C4 at the scenario of the specification: the router is enabled towards
`r.example.com:8060`, only the port is edited to 8061; the controller is
destroyed and one new controller is started with port 8061 and the address,
public key and host key unchanged. -/
theorem C4_connect_constructs_one_controller_witness :
    ∃ w1, updateConfiguration portEdited "aspia_host.json" false sampleWorld = some w1 ∧
      w1.server.settings_ = portEdited ∧
      w1.server.router_controller_ = some
        { router_info :=
            { address := "r.example.com", port := 8061, public_key := [75, 49],
              host_key := [1, 2, 3] } } ∧
      w1.trace =
        [ Effect.LOG Severity.LS_INFO "Configuration file change detected",
          Effect.settingsSync,
          Effect.setUserList ["alice"],
          Effect.LOG Severity.LS_INFO "Router parameters have changed",
          Effect.LOG Severity.LS_INFO "Connecting to the router...",
          Effect.routerControllerDestroyed,
          Effect.routerControllerCreated,
          Effect.routerControllerStart
            { address := "r.example.com", port := 8061, public_key := [75, 49],
              host_key := [1, 2, 3] } ] :=
  C4_connect_constructs_one_controller portEdited "aspia_host.json" sampleWorld
    sampleAuthenticatorManager sampleUserSessionManager rfl rfl rfl
    (Or.inr ⟨sampleRouterController, rfl, by decide⟩)

/-- C8: a change event with the error flag set is ignored.  For every server
state, settings file content and path, `updateConfiguration(path, true)`
returns, leaves every member unchanged (settings, authenticator manager with
its user list, session manager with its router state, listener, controller) and
adds one log line to the trace and no call on a collaborator. -/
theorem C8_error_event_ignored (disk : Settings) (path : String) (w : World) :
    updateConfiguration disk path true w = some
      { server := w.server
        trace := w.trace ++
          [ Effect.LOG Severity.LS_INFO "Configuration file change detected" ] } ∧
    collaboratorCalls
        (w.trace ++ [ Effect.LOG Severity.LS_INFO "Configuration file change detected" ]) =
      collaboratorCalls w.trace := by
  constructor
  · simp [updateConfiguration, World.emit]
  · simp [collaboratorCalls, Effect.isLog]

end host

namespace host

/-! ## Start and teardown -/

theorem addFirewallRules_eq (env : Env) (w : World) :
    addFirewallRules env w =
      { server := w.server
        trace := w.trace ++ firewallAddTrace env w.server.settings_.tcpPort } := by
  obtain ⟨b1, b2, b3, b4⟩ := env
  cases b1 <;> cases b2 <;> cases b3 <;> simp [addFirewallRules, firewallAddTrace, World.emit]

theorem deleteFirewallRules_eq (env : Env) (w : World) :
    deleteFirewallRules env w =
      { server := w.server, trace := w.trace ++ firewallDeleteTrace env } := by
  obtain ⟨b1, b2, b3, b4⟩ := env
  cases b1 <;> cases b2 <;> simp [deleteFirewallRules, firewallDeleteTrace, World.emit]

theorem connectToRouter_eq (w : World) :
    connectToRouter w =
      { server := { w.server with
          router_controller_ := some { router_info := w.server.settings_.routerParameters } }
        trace := w.trace ++ connectTrace w.server } := by
  simp [connectToRouter, resetRouterController, World.emit, connectTrace,
    Settings.routerParameters]

/-- The closed form of `start` on a server that is not running. -/
theorem start_stopped_eq (env : Env) (w : World) (h : w.server.server_ = none) :
    start env w = some
      { server :=
          { settings_ := w.server.settings_
            settings_watcher_ := some { watched := some w.server.settings_.filePath }
            authenticator_manager_ :=
              some { user_list := some (UserList.merge w.server.settings_.userList [])
                     channels := [] }
            user_session_manager_ := some { userList := [], router_state := none }
            server_ := some { port := w.server.settings_.tcpPort, listening := env.bindOk }
            router_controller_ :=
              if w.server.settings_.isRouterEnabled then
                some { router_info := w.server.settings_.routerParameters }
              else w.server.router_controller_ }
        trace := w.trace ++ startTrace env w.server ++
          [Effect.LOG Severity.LS_INFO "Host server is started successfully"] } := by
  obtain ⟨⟨st, sw, am1, usm1, srv, rc1⟩, tr⟩ := w
  simp only at h
  subst h
  cases hen : st.isRouterEnabled <;>
  simp [start, makeSettingsWatcher, makeAuthenticatorManager, makeUserSessionManager,
    reloadUserList, addFirewallRules_eq, connectToRouter_eq, World.emit, startTrace,
    connectTrace, hen]

end host

namespace host

theorem countP_isListenerStart_destroyedIf {α : Type} (p : Option α) (e : Effect)
    (he : e.isListenerStart = false) :
    (destroyedIf p e).countP Effect.isListenerStart = 0 := by
  cases p <;> simp [destroyedIf, he]

/-- The trace of `start` on a stopped server starts the listener exactly once. -/
theorem startTrace_one_listener (env : Env) (s : Server) :
    (startTrace env s).countP Effect.isListenerStart = 1 := by
  have hf : (firewallAddTrace env s.settings_.tcpPort).countP Effect.isListenerStart = 0 := by
    obtain ⟨b1, b2, b3, b4⟩ := env
    cases b1 <;> cases b2 <;> cases b3 <;> simp [firewallAddTrace, Effect.isListenerStart]
  have hc : (connectTrace s).countP Effect.isListenerStart = 0 := by
    simp [connectTrace, List.countP_append, countP_isListenerStart_destroyedIf,
      Effect.isListenerStart]
  have hi : (if s.settings_.isRouterEnabled then connectTrace s else []).countP
      Effect.isListenerStart = 0 := by
    split
    · exact hc
    · rfl
  simp only [startTrace, List.countP_append, hf, hi]
  simp [countP_isListenerStart_destroyedIf, Effect.isListenerStart]

/-- C9: `start` on a server that is already running (listener present) is a
no-op.  For every running state and platform it returns with every member
unchanged and emits only the debug-build warning: no watcher, authenticator
manager, session manager, listener or controller is created, no firewall rule
is added and no port is bound.  Hence two calls on a stopped server leave the
state of the first call and start (bind) the listener exactly once. -/
theorem C9_start_twice_is_noop (env env2 : Env) (w : World) :
    (w.server.server_.isSome = true →
      start env w = some
        { server := w.server
          trace := w.trace ++
            [ Effect.DLOG Severity.LS_WARNING
                "An attempt was start an already running server" ] }) ∧
    (w.server.server_ = none →
      ∃ w1 t, start env w = some w1 ∧
        w1.server.server_ =
          some { port := w.server.settings_.tcpPort, listening := env.bindOk } ∧
        w1.trace = w.trace ++ t ∧
        start env2 w1 = some
          { server := w1.server
            trace := w.trace ++ t ++
              [ Effect.DLOG Severity.LS_WARNING
                  "An attempt was start an already running server" ] } ∧
        (t ++ [ Effect.DLOG Severity.LS_WARNING
                  "An attempt was start an already running server" ]).countP
          Effect.isListenerStart = 1) := by
  constructor
  · intro h
    cases hs : w.server.server_ with
    | none => simp [hs] at h
    | some srv => simp [start, hs, World.emit]
  · intro h
    refine ⟨_, _, start_stopped_eq env w h, rfl, List.append_assoc _ _ _, ?_, ?_⟩
    · simp [start, World.emit]
    · simp [List.countP_append, startTrace_one_listener, Effect.isListenerStart]

/-- C9 at concrete servers: a start of the running sample server changes nothing,
and two starts of the stopped sample server bind one listener. -/
theorem C9_start_twice_is_noop_witness :
    start allOk sampleWorld = some
        { server := sampleWorld.server
          trace := sampleWorld.trace ++
            [ Effect.DLOG Severity.LS_WARNING
                "An attempt was start an already running server" ] } ∧
    (∃ w1 t, start allOk stoppedWorld = some w1 ∧
        w1.server.server_ =
          some { port := stoppedWorld.server.settings_.tcpPort, listening := allOk.bindOk } ∧
        w1.trace = stoppedWorld.trace ++ t ∧
        start allOk w1 = some
          { server := w1.server
            trace := stoppedWorld.trace ++ t ++
              [ Effect.DLOG Severity.LS_WARNING
                  "An attempt was start an already running server" ] } ∧
        (t ++ [ Effect.DLOG Severity.LS_WARNING
                  "An attempt was start an already running server" ]).countP
          Effect.isListenerStart = 1) :=
  ⟨(C9_start_twice_is_noop allOk allOk sampleWorld).1 rfl,
   (C9_start_twice_is_noop allOk allOk stoppedWorld).2 rfl⟩

end host

namespace host

/-- The closed form of the destructor. -/
theorem destructor_eq (env : Env) (w : World) :
    Server.destructor env w =
      { server :=
          { settings_ := w.server.settings_
            settings_watcher_ := none
            authenticator_manager_ := none
            user_session_manager_ := none
            server_ := none
            router_controller_ := none }
        trace := w.trace ++
          [Effect.LOG Severity.LS_INFO "Stopping the server..."] ++
          destroyedIf w.server.settings_watcher_ Effect.watcherDestroyed ++
          destroyedIf w.server.authenticator_manager_ Effect.authenticatorManagerDestroyed ++
          destroyedIf w.server.user_session_manager_ Effect.userSessionManagerDestroyed ++
          destroyedIf w.server.server_ Effect.networkServerDestroyed ++
          firewallDeleteTrace env ++
          [Effect.LOG Severity.LS_INFO "Server is stopped"] ++
          destroyedIf w.server.router_controller_ Effect.routerControllerDestroyed } := by
  simp [Server.destructor, resetSettingsWatcher, resetAuthenticatorManager,
    resetUserSessionManager, resetNetworkServer, resetRouterController,
    deleteFirewallRules_eq, World.emit]

/-- C6 (as stated, refuted): the running sample server, which has a live
controller, is torn down on a platform where the firewall calls succeed.  The
firewall rule is removed before the controller is destroyed, not after. -/
theorem C6_controller_destroyed_after_firewall :
    sampleWorld.server.router_controller_ = some sampleRouterController ∧
    (Server.destructor allOk sampleWorld).trace =
      [ Effect.LOG Severity.LS_INFO "Stopping the server...",
        Effect.watcherDestroyed,
        Effect.authenticatorManagerDestroyed,
        Effect.userSessionManagerDestroyed,
        Effect.networkServerDestroyed,
        Effect.deleteRuleByName "Aspia Host Service",
        Effect.LOG Severity.LS_INFO "Server is stopped",
        Effect.routerControllerDestroyed ] ∧
    ¬ ((Server.destructor allOk sampleWorld).trace.indexOf Effect.routerControllerDestroyed <
        (Server.destructor allOk sampleWorld).trace.indexOf
          (Effect.deleteRuleByName "Aspia Host Service")) := by
  have h : (Server.destructor allOk sampleWorld).trace =
      [ Effect.LOG Severity.LS_INFO "Stopping the server...",
        Effect.watcherDestroyed,
        Effect.authenticatorManagerDestroyed,
        Effect.userSessionManagerDestroyed,
        Effect.networkServerDestroyed,
        Effect.deleteRuleByName "Aspia Host Service",
        Effect.LOG Severity.LS_INFO "Server is stopped",
        Effect.routerControllerDestroyed ] := by
    rw [destructor_eq]; rfl
  refine ⟨rfl, h, ?_⟩
  rw [h]
  decide

/-- C6 (amended): teardown in `Server::~Server` runs in this order: stop the
configuration watch; destroy the authenticator manager; destroy the user
session manager; destroy the network listener; remove the firewall rule (when
the platform gives a valid firewall context); and only then, when the members
are released after the destructor body, destroy the `RouterController` if one
exists.  Afterwards no subsystem is left. -/
theorem C6_teardown_order (env : Env) (w : World) :
    (Server.destructor env w).trace = w.trace ++
      [Effect.LOG Severity.LS_INFO "Stopping the server..."] ++
      (if w.server.settings_watcher_.isSome then [Effect.watcherDestroyed] else []) ++
      (if w.server.authenticator_manager_.isSome then [Effect.authenticatorManagerDestroyed]
       else []) ++
      (if w.server.user_session_manager_.isSome then [Effect.userSessionManagerDestroyed]
       else []) ++
      (if w.server.server_.isSome then [Effect.networkServerDestroyed] else []) ++
      (if env.currentExecFile && env.firewallValid then
        [Effect.deleteRuleByName kFirewallRuleName] else []) ++
      [Effect.LOG Severity.LS_INFO "Server is stopped"] ++
      (if w.server.router_controller_.isSome then [Effect.routerControllerDestroyed] else []) ∧
    (Server.destructor env w).server =
      { settings_ := w.server.settings_
        settings_watcher_ := none
        authenticator_manager_ := none
        user_session_manager_ := none
        server_ := none
        router_controller_ := none } := by
  rw [destructor_eq]
  refine ⟨?_, rfl⟩
  obtain ⟨⟨st, sw, am1, usm1, srv, rc1⟩, tr⟩ := w
  cases sw <;> cases am1 <;> cases usm1 <;> cases srv <;> cases rc1 <;>
    simp [destroyedIf, firewallDeleteTrace]

end host

namespace host

/-! ## Connection admission -/

/-- C10: connection admission is uniform.  For every channel, whatever its
read-buffer size and no-delay setting, and every server, `onNewConnection` and
`onClientConnected` first set the read-buffer size to 1048576 and enable
no-delay, and only then, when an authenticator manager exists, hand over the
channel, which then has exactly these two settings; the two entry points leave
the same members and make the same calls on collaborators, differing only in
the line they log. -/
theorem C10_admission_uniform (channel : NetworkChannel) (w : World) :
    (∀ am, w.server.authenticator_manager_ = some am →
      onNewConnection channel w =
        { server := { w.server with
            authenticator_manager_ := some { am with
              channels := am.channels ++
                [{ id := channel.id, readBufferSize := 1048576, noDelay := true }] } }
          trace := w.trace ++
            [ Effect.LOG Severity.LS_INFO "New DIRECT connection",
              Effect.setReadBufferSize channel.id 1048576,
              Effect.setNoDelay channel.id true,
              Effect.addNewChannel
                { id := channel.id, readBufferSize := 1048576, noDelay := true } ] } ∧
      onClientConnected channel w =
        { server := { w.server with
            authenticator_manager_ := some { am with
              channels := am.channels ++
                [{ id := channel.id, readBufferSize := 1048576, noDelay := true }] } }
          trace := w.trace ++
            [ Effect.LOG Severity.LS_INFO "New RELAY connection",
              Effect.setReadBufferSize channel.id 1048576,
              Effect.setNoDelay channel.id true,
              Effect.addNewChannel
                { id := channel.id, readBufferSize := 1048576, noDelay := true } ] }) ∧
    (w.server.authenticator_manager_ = none →
      onNewConnection channel w =
        { server := w.server
          trace := w.trace ++
            [ Effect.LOG Severity.LS_INFO "New DIRECT connection",
              Effect.setReadBufferSize channel.id 1048576,
              Effect.setNoDelay channel.id true ] } ∧
      onClientConnected channel w =
        { server := w.server
          trace := w.trace ++
            [ Effect.LOG Severity.LS_INFO "New RELAY connection",
              Effect.setReadBufferSize channel.id 1048576,
              Effect.setNoDelay channel.id true ] }) ∧
    (onNewConnection channel w).server = (onClientConnected channel w).server ∧
    collaboratorCalls (onNewConnection channel w).trace =
      collaboratorCalls (onClientConnected channel w).trace := by
  obtain ⟨⟨st, sw, am1, usm1, srv, rc1⟩, tr⟩ := w
  refine ⟨?_, ?_, ?_, ?_⟩
  · intro am h
    simp only at h
    subst h
    simp [onNewConnection, onClientConnected, startAuthentication, World.emit,
      NetworkChannel.setReadBufferSize, NetworkChannel.setNoDelay, kReadBufferSize]
  · intro h
    simp only at h
    subst h
    simp [onNewConnection, onClientConnected, startAuthentication, World.emit,
      NetworkChannel.setReadBufferSize, NetworkChannel.setNoDelay, kReadBufferSize]
  · cases am1 <;>
    simp [onNewConnection, onClientConnected, startAuthentication, World.emit]
  · cases am1 <;>
    simp [onNewConnection, onClientConnected, startAuthentication, World.emit,
      collaboratorCalls, Effect.isLog, List.filter_append, List.filter_cons]

/-- C10 at the running sample server and a channel that arrives with a 4096-byte
buffer and no-delay off. -/
theorem C10_admission_uniform_witness :
    onNewConnection sampleChannel sampleWorld =
        { server := { sampleWorld.server with
            authenticator_manager_ := some { sampleAuthenticatorManager with
              channels := [{ id := 7, readBufferSize := 1048576, noDelay := true }] } }
          trace :=
            [ Effect.LOG Severity.LS_INFO "New DIRECT connection",
              Effect.setReadBufferSize 7 1048576,
              Effect.setNoDelay 7 true,
              Effect.addNewChannel { id := 7, readBufferSize := 1048576, noDelay := true } ] } ∧
    onClientConnected sampleChannel sampleWorld =
        { server := { sampleWorld.server with
            authenticator_manager_ := some { sampleAuthenticatorManager with
              channels := [{ id := 7, readBufferSize := 1048576, noDelay := true }] } }
          trace :=
            [ Effect.LOG Severity.LS_INFO "New RELAY connection",
              Effect.setReadBufferSize 7 1048576,
              Effect.setNoDelay 7 true,
              Effect.addNewChannel { id := 7, readBufferSize := 1048576, noDelay := true } ] } ∧
    (onNewConnection sampleChannel stoppedWorld =
        { server := stoppedWorld.server
          trace := stoppedWorld.trace ++
            [ Effect.LOG Severity.LS_INFO "New DIRECT connection",
              Effect.setReadBufferSize sampleChannel.id 1048576,
              Effect.setNoDelay sampleChannel.id true ] } ∧
      onClientConnected sampleChannel stoppedWorld =
        { server := stoppedWorld.server
          trace := stoppedWorld.trace ++
            [ Effect.LOG Severity.LS_INFO "New RELAY connection",
              Effect.setReadBufferSize sampleChannel.id 1048576,
              Effect.setNoDelay sampleChannel.id true ] }) :=
  ⟨((C10_admission_uniform sampleChannel sampleWorld).1 sampleAuthenticatorManager rfl).1,
   ((C10_admission_uniform sampleChannel sampleWorld).1 sampleAuthenticatorManager rfl).2,
   (C10_admission_uniform sampleChannel stoppedWorld).2.1 rfl⟩

end host

namespace client

/-! ## The dispatch proxy -/

/-- Off the owning thread every operation only posts itself to the queue. -/
theorem applyCall_off_owner (c : Call) (n : Nat) (s : ProxyState) :
    applyCall c (Thread.other n) s = { s with queue := s.queue ++ [c] } := by
  cases c <;>
    simp [applyCall, getDriveList, getFileList, createDirectory, rename, remove, transfer,
      belongsToCurrentThread, postTask]

/-- On the owning thread every operation calls the target when the proxy is
attached and does nothing otherwise. -/
theorem applyCall_on_owner (c : Call) (s : ProxyState) :
    applyCall c Thread.owner s =
      if s.file_control_ then { s with received := s.received ++ [(Thread.owner, c)] }
      else s := by
  cases c <;>
    simp [applyCall, getDriveList, getFileList, createDirectory, rename, remove, transfer,
      belongsToCurrentThread, invokeTarget]

/-- Running the whole queue of an attached proxy delivers the queued calls to
the target in queue order. -/
theorem runTasks_attached (q : List Call) (r : List (Thread × Call)) :
    runTasks q.length { file_control_ := true, queue := q, received := r } =
      { file_control_ := true, queue := []
        received := r ++ q.map (fun c => (Thread.owner, c)) } := by
  induction q generalizing r with
  | nil => simp [runTasks]
  | cons c rest ih =>
    simp only [List.length_cons, runTasks, runNext, applyCall_on_owner]
    simp [ih]

/-- Running the whole queue of a detached proxy delivers nothing. -/
theorem runTasks_detached (q : List Call) (r : List (Thread × Call)) :
    runTasks q.length { file_control_ := false, queue := q, received := r } =
      { file_control_ := false, queue := [], received := r } := by
  induction q generalizing r with
  | nil => simp [runTasks]
  | cons c rest ih =>
    simp only [List.length_cons, runTasks, runNext, applyCall_on_owner]
    simp [ih]

/-- One event on a detached proxy leaves it detached and the target untouched. -/
theorem step_detached (s : ProxyState) (e : Event) (h : s.file_control_ = false) :
    (step s e).file_control_ = false ∧ (step s e).received = s.received := by
  cases e with
  | call current c =>
    cases current with
    | owner => simp [step, applyCall_on_owner, h]
    | other n => simp [step, applyCall_off_owner, h]
  | dettach => simp [step, dettach]
  | runNext =>
    cases hq : s.queue with
    | nil => simp [step, runNext, hq, h]
    | cons c rest => simp [step, runNext, hq, applyCall_on_owner, h]

/-- Any sequence of events on a detached proxy leaves the target untouched. -/
theorem run_detached (events : List Event) (s : ProxyState) (h : s.file_control_ = false) :
    (run events s).file_control_ = false ∧ (run events s).received = s.received := by
  induction events generalizing s with
  | nil => exact ⟨h, rfl⟩
  | cons e rest ih =>
    have hs := step_detached s e h
    have := ih (step s e) hs.1
    simp only [run, List.foldl_cons] at this ⊢
    exact ⟨this.1, this.2.trans hs.2⟩

/-- One event only adds calls executed on the owning thread to what the target
received. -/
theorem step_received (s : ProxyState) (e : Event) :
    ∃ l, (step s e).received = s.received ++ l ∧ ∀ x ∈ l, x.1 = Thread.owner := by
  cases e with
  | call current c =>
    cases current with
    | owner =>
      cases h : s.file_control_ with
      | false => exact ⟨[], by simp [step, applyCall_on_owner, h], by simp⟩
      | true => exact ⟨[(Thread.owner, c)], by simp [step, applyCall_on_owner, h], by simp⟩
    | other n => exact ⟨[], by simp [step, applyCall_off_owner], by simp⟩
  | dettach => exact ⟨[], by simp [step, dettach], by simp⟩
  | runNext =>
    cases hq : s.queue with
    | nil => exact ⟨[], by simp [step, runNext, hq], by simp⟩
    | cons c rest =>
      cases h : s.file_control_ with
      | false => exact ⟨[], by simp [step, runNext, hq, applyCall_on_owner, h], by simp⟩
      | true =>
        exact ⟨[(Thread.owner, c)], by simp [step, runNext, hq, applyCall_on_owner, h],
          by simp⟩

/-- Any sequence of events only adds calls executed on the owning thread to what
the target received. -/
theorem run_received (events : List Event) (s : ProxyState) :
    ∃ l, (run events s).received = s.received ++ l ∧ ∀ x ∈ l, x.1 = Thread.owner := by
  induction events generalizing s with
  | nil => exact ⟨[], by simp [run], by simp⟩
  | cons e rest ih =>
    obtain ⟨l1, h1, h1o⟩ := step_received s e
    obtain ⟨l2, h2, h2o⟩ := ih (step s e)
    refine ⟨l1 ++ l2, ?_, ?_⟩
    · simp only [run, List.foldl_cons] at h2 ⊢
      rw [h2, h1, List.append_assoc]
    · intro x hx
      rcases List.mem_append.mp hx with hx | hx
      · exact h1o x hx
      · exact h2o x hx

end client

namespace client

/-- Calls made off the owning thread, one after the other, only fill the queue,
in the order they were made. -/
theorem run_off_owner_calls (cs : List (Nat × Call)) (s : ProxyState) :
    run (cs.map (fun p => Event.call (Thread.other p.1) p.2)) s =
      { s with queue := s.queue ++ cs.map (fun p => p.2) } := by
  induction cs generalizing s with
  | nil => simp [run]
  | cons p rest ih =>
    have := ih (step s (Event.call (Thread.other p.1) p.2))
    simp only [run, List.map_cons, List.foldl_cons] at this ⊢
    rw [this]
    simp [step, applyCall_off_owner]

/-- C7: the dispatch-proxy property of `FileControlProxy`, the io task runner
being a FIFO queue.  For each of the six operations (`c` ranges over them with
their arguments): a call made off the owning thread leaves the target untouched
and puts exactly one task, the call itself, at the tail of the queue; when the
task runner runs the task at the head of the queue on the owning thread, the
target receives that call once with the same arguments if the proxy is
attached and nothing if `dettach` ran before; a call made on the owning thread
reaches the target inline once iff the proxy is attached.  Calls posted off
thread and then run are received in post order; after `dettach` no sequence of
calls and task runs reaches the target; and over every sequence of events the
target is only ever called on the owning thread. -/
theorem C7_dispatch_proxy (c : Call) (n : Nat) (s : ProxyState) (rest : List Call)
    (events : List Event) (cs : List (Nat × Call)) :
    applyCall c (Thread.other n) s =
      { file_control_ := s.file_control_, queue := s.queue ++ [c], received := s.received } ∧
    runNext { file_control_ := s.file_control_, queue := c :: rest, received := s.received } =
      { file_control_ := s.file_control_, queue := rest
        received := s.received ++ (if s.file_control_ then [(Thread.owner, c)] else []) } ∧
    applyCall c Thread.owner s =
      { file_control_ := s.file_control_, queue := s.queue
        received := s.received ++ (if s.file_control_ then [(Thread.owner, c)] else []) } ∧
    runTasks cs.length (run (cs.map (fun p => Event.call (Thread.other p.1) p.2)) initial) =
      { file_control_ := true, queue := []
        received := cs.map (fun p => (Thread.owner, p.2)) } ∧
    runTasks cs.length
        (dettach (run (cs.map (fun p => Event.call (Thread.other p.1) p.2)) initial)) =
      { file_control_ := false, queue := [], received := [] } ∧
    (run events (dettach s)).received = s.received ∧
    (∃ l, (run events s).received = s.received ++ l ∧ ∀ x ∈ l, x.1 = Thread.owner) := by
  refine ⟨applyCall_off_owner c n s, ?_, ?_, ?_, ?_, ?_, run_received events s⟩
  · cases h : s.file_control_ <;> simp [runNext, applyCall_on_owner]
  · rw [applyCall_on_owner]
    obtain ⟨fc, q, r⟩ := s
    cases fc <;> simp
  · rw [run_off_owner_calls]
    have := runTasks_attached (cs.map (fun p => p.2)) []
    simp only [List.length_map, List.map_map, List.nil_append] at this
    simpa [initial] using this
  · rw [run_off_owner_calls]
    have := runTasks_detached (cs.map (fun p => p.2)) []
    simp only [List.length_map] at this
    simpa [initial, dettach] using this
  · exact (run_detached events (dettach s) rfl).2

end client

namespace aspia

/-! ## The dimension check of the cursor decoder -/

/-- Dimensions that pass the check have a product that is positive and at most
`16383 * 16383`. -/
theorem product_bounds (w h : Int) (hw0 : 0 < w) (hw : w ≤ 16383) (hh0 : 0 < h)
    (hh : h ≤ 16383) : 1 ≤ w * h ∧ w * h ≤ 268402689 := by
  constructor
  · nlinarith
  · nlinarith

/-- An `int` product within the bounds of `product_bounds` does not wrap. -/
theorem wrapInt32_id (p : Int) (h1 : 1 ≤ p) (h2 : p ≤ 268402689) : wrapInt32 p = p := by
  simp only [wrapInt32]
  omega

/-- Such a product is unchanged by the conversion to a 32-bit or 64-bit `size_t`. -/
theorem toSizeT_id (bits : Nat) (hb : bits = 32 ∨ bits = 64) (p : Int) (h1 : 1 ≤ p)
    (h2 : p ≤ 268402689) : toSizeT bits p = p.toNat := by
  rcases hb with rfl | rfl
  · simp only [toSizeT]
    congr 1
    exact Int.emod_eq_of_lt (by omega) (by norm_num; omega)
  · simp only [toSizeT]
    congr 1
    exact Int.emod_eq_of_lt (by omega) (by norm_num; omega)

/-- For dimensions that pass the check the machine computation of `image_size`
yields the exact value `4 * width * height`. -/
theorem imageSize_exact (bits : Nat) (w h : Int) (hb : bits = 32 ∨ bits = 64)
    (hw0 : 0 < w) (hw : w ≤ 16383) (hh0 : 0 < h) (hh : h ≤ 16383) :
    imageSize bits w h = (4 * w * h).toNat := by
  obtain ⟨h1, h2⟩ := product_bounds w h hw0 hw hh0 hh
  have e : 4 * w * h = 4 * (w * h) := by ring
  rw [e, imageSize, wrapInt32_id _ h1 h2, toSizeT_id bits hb _ h1 h2, sizeof_uint32]
  generalize w * h = p at h1 h2
  have h3 : p.toNat * 4 = (4 * p).toNat := by omega
  rw [h3]
  apply Nat.mod_eq_of_lt
  rcases hb with rfl | rfl <;> norm_num <;> omega

/-- C11: in `CursorDecoder::decode`, for every cursor shape without the `CACHE`
flag: if the width or the height is `<= 0` or greater than 16383 (the `int16`
maximum halved), the result is null, only the warning is logged, no buffer is
allocated and the cache is untouched; and for every width and height that pass
the check (with a 32-bit or 64-bit `size_t`), the product `width * height` fits
in a signed 32-bit `int`, and the first thing `decode` does is allocate a buffer
whose size is the exact value `4 * width * height`, at most 1073610756 bytes. -/
theorem C11_decode_dimension_check (ext : Externals) (fuel : Nat)
    (cache_ : Option MouseCursorCache) (cursor_shape : CursorShape)
    (hflag : cursor_shape.flags &&& ext.CACHE = 0) :
    ((cursor_shape.width ≤ 0 ∨ cursor_shape.width > 16383 ∨
        cursor_shape.height ≤ 0 ∨ cursor_shape.height > 16383) →
      decode ext fuel cache_ cursor_shape =
        { outcome := Outcome.returned none
          cache_ := cache_
          trace := [DecodeEffect.warnOutOfBounds cursor_shape.width cursor_shape.height] }) ∧
    ((0 < cursor_shape.width ∧ cursor_shape.width ≤ 16383 ∧
        0 < cursor_shape.height ∧ cursor_shape.height ≤ 16383) →
      (ext.sizeBits = 32 ∨ ext.sizeBits = 64) →
      -2 ^ 31 ≤ cursor_shape.width * cursor_shape.height ∧
      cursor_shape.width * cursor_shape.height ≤ 2 ^ 31 - 1 ∧
      wrapInt32 (cursor_shape.width * cursor_shape.height) =
        cursor_shape.width * cursor_shape.height ∧
      imageSize ext.sizeBits cursor_shape.width cursor_shape.height =
        (4 * cursor_shape.width * cursor_shape.height).toNat ∧
      (4 * cursor_shape.width * cursor_shape.height).toNat ≤ 1073610756 ∧
      (decode ext fuel cache_ cursor_shape).trace.head? =
        some (DecodeEffect.allocate
          (4 * cursor_shape.width * cursor_shape.height).toNat)) := by
  constructor
  · intro hbad
    have hbad2 : cursor_shape.width ≤ 0 ∨ cursor_shape.width > int16_max / 2 ∨
        cursor_shape.height ≤ 0 ∨ cursor_shape.height > int16_max / 2 := by
      simpa [int16_max] using hbad
    simp only [decode, hflag, ne_eq, not_true_eq_false, if_false, hbad2, if_true]
  · rintro ⟨hw0, hw, hh0, hh⟩ hb
    obtain ⟨h1, h2⟩ := product_bounds _ _ hw0 hw hh0 hh
    have hsz := imageSize_exact ext.sizeBits _ _ hb hw0 hw hh0 hh
    have hgood : ¬ (cursor_shape.width ≤ 0 ∨ cursor_shape.width > int16_max / 2 ∨
        cursor_shape.height ≤ 0 ∨ cursor_shape.height > int16_max / 2) := by
      simp only [int16_max]
      omega
    refine ⟨by omega, by omega, ?_, hsz, ?_, ?_⟩
    · exact wrapInt32_id _ h1 h2
    · have e : 4 * cursor_shape.width * cursor_shape.height =
          4 * (cursor_shape.width * cursor_shape.height) := by ring
      rw [e]
      omega
    · simp only [decode, hflag, ne_eq, not_true_eq_false, if_false, hgood, hsz]
      cases decompressCursor ext fuel cursor_shape
          (List.replicate (4 * cursor_shape.width * cursor_shape.height).toNat 0)
          (4 * cursor_shape.width * cursor_shape.height).toNat with
      | none => rfl
      | some r =>
        obtain ⟨b, image⟩ := r
        cases b with
        | false => rfl
        | true =>
          simp only
          split
          · split
            · rfl
            · simp [addToCache]
          · cases cache_ <;> simp [addToCache]

/-- C11 at two shapes: a shape of width 0 is refused without an allocation, and
the largest shape that passes makes `decode` allocate `4 * 16383 * 16383` bytes. -/
theorem C11_decode_dimension_check_witness :
    decode sampleExternals 8 none zeroWidthShape =
        { outcome := Outcome.returned none
          cache_ := none
          trace := [DecodeEffect.warnOutOfBounds zeroWidthShape.width zeroWidthShape.height] } ∧
    (-2 ^ 31 ≤ largestShape.width * largestShape.height ∧
      largestShape.width * largestShape.height ≤ 2 ^ 31 - 1 ∧
      wrapInt32 (largestShape.width * largestShape.height) =
        largestShape.width * largestShape.height ∧
      imageSize sampleExternals.sizeBits largestShape.width largestShape.height =
        (4 * largestShape.width * largestShape.height).toNat ∧
      (4 * largestShape.width * largestShape.height).toNat ≤ 1073610756 ∧
      (decode sampleExternals 8 none largestShape).trace.head? =
        some (DecodeEffect.allocate
          (4 * largestShape.width * largestShape.height).toNat)) :=
  ⟨(C11_decode_dimension_check sampleExternals 8 none zeroWidthShape (by decide)).1
      (Or.inl (by decide)),
   (C11_decode_dimension_check sampleExternals 8 none largestShape (by decide)).2
      ⟨by decide, by decide, by decide, by decide⟩ (Or.inr rfl)⟩

end aspia
